import Mathlib

/-!
Shallow embedding of `src/sentry_slack/plugin.py` (the Slack notification
plugin for Sentry) and proofs about its payload-construction logic.

Python strings are modelled by `String`, Python `None`-able option values by
`Option String`, and the `AttributeError` raised by calling `.strip()` on
`None` by `Except.error`.  The Python calls that encode strings to utf-8 are
identity on the modelled strings.  Host collaborators (the tag-label database lookups and the
host URL builder for the rule-edit route) are passed in as functions,
following the design note of the specification.
-/

namespace SentrySlack

/-- Characters removed by Python `str.strip()` with no argument. -/
def isPySpace (c : Char) : Bool :=
  c == ' ' || c == '\t' || c == '\n' || c == '\r' || c == '\x0b' || c == '\x0c'

/-- Strip characters satisfying `p` from both ends of a character list. -/
def pyStripList (p : Char → Bool) (cs : List Char) : List Char :=
  ((cs.dropWhile p).reverse.dropWhile p).reverse

/-- Python `s.strip()`: remove surrounding whitespace. -/
def pyStrip (s : String) : String :=
  ⟨pyStripList isPySpace s.data⟩

/-- Python strip with a single space argument (used on the webhook URL):
remove surrounding space characters only. -/
def pyStripSpace (s : String) : String :=
  ⟨pyStripList (fun c => c == ' ') s.data⟩

/-- Python `needle in haystack` on strings: contiguous substring containment. -/
def pyIn (needle haystack : String) : Bool :=
  decide (needle.data <:+: haystack.data)

/-- Python truthiness of an optional string (`None` and `''` are falsy). -/
def optTruthy : Option String → Bool
  | none => false
  | some s => !s.isEmpty

/-- Model of `project.team` (only the name is read). -/
structure Team where
  name : String
  deriving DecidableEq

/-- The attributes of a Sentry project read by the plugin. -/
structure Project where
  name : String
  slug : String
  team : Team
  deriving DecidableEq

/-- The attributes of a Sentry group read by the plugin.
`level_display` is the value of `group.get_level_display()`,
`absolute_url` the value of `group.get_absolute_url()`, and
`organization_slug` the value of `group.organization.slug`. -/
structure Group where
  message_short : String
  culprit : String
  level_display : String
  absolute_url : String
  organization_slug : String
  project : Project
  deriving DecidableEq

/-- The attributes of an event read by the plugin: its group and the
result of `event.get_tags()` (an ordered list of key/value pairs). -/
structure Event where
  group : Group
  tags : List (String × String)
  deriving DecidableEq

/-- A triggering alert rule: identifier and human label. -/
structure Rule where
  id : Nat
  label : String
  deriving DecidableEq

/-- The argument of `SlackPlugin.notify`: an event plus triggering rules. -/
structure Notification where
  event : Event
  rules : List Rule
  deriving DecidableEq

/-- Resolved per-project plugin options, as returned by `self.get_option`:
`none` models an absent (never stored) option, `some s` a stored string.
The two booleans model the truthiness of the stored toggle values. -/
structure Config where
  webhook : Option String
  username : Option String
  icon_url : Option String
  channel : Option String
  include_rules : Bool
  include_tags : Bool
  deriving DecidableEq

/-- The module-level `LEVEL_TO_COLOR` table. -/
def LEVEL_TO_COLOR : List (String × String) :=
  [("debug", "cfd3da"), ("info", "2788ce"), ("warning", "f18500"),
   ("error", "f43f20"), ("fatal", "d20f2a")]

/-- Python `d.get(key, dflt)` on an association list. -/
def dictGet (d : List (String × String)) (key dflt : String) : String :=
  match d.lookup key with
  | some v => v
  | none => dflt

/-- Model of `get_project_full_name` (module-level helper backported from Sentry 8.0). -/
def get_project_full_name (project : Project) : String :=
  if !(pyIn project.team.name project.name) then
    project.team.name ++ " " ++ project.name
  else
    project.name

/-- Model of `SlackPlugin.is_configured`: truthiness of every option in the tuple of webhook. -/
def is_configured (cfg : Config) : Bool :=
  [cfg.webhook].all optTruthy

/-- Model of `SlackPlugin.color_for_group`: the hash sign prepended to the table lookup with default string error. -/
def color_for_group (group : Group) : String :=
  "#" ++ dictGet LEVEL_TO_COLOR group.level_display "error"

/-- Model of `SlackPlugin._get_tags`: the event's tag pairs with keys replaced by their
`TagKey` label (falling back to the raw key) and values replaced by their
`TagValue` label (falling back to the raw value).  The database lookups are
passed in as the partial maps `keyLabel` and `valueLabel`. -/
def get_tags (event : Event) (keyLabel : String → Option String)
    (valueLabel : String → String → Option String) : List (String × String) :=
  let tag_list := event.tags
  if tag_list.isEmpty then
    []
  else
    tag_list.map fun kv => ((keyLabel kv.1).getD kv.1, (valueLabel kv.1 kv.2).getD kv.2)

/-- One entry of the `fields` list of the Slack attachment. -/
structure Field where
  title : String
  value : String
  short : Bool
  deriving DecidableEq

/-- The single Slack attachment built by `notify`. -/
structure Attachment where
  fallback : String
  title : String
  title_link : String
  color : String
  fields : List Field
  deriving DecidableEq

/-- The payload dictionary built by `notify`; the three optional entries are
present in the dictionary exactly when they are `some`. -/
structure Payload where
  parse : String
  attachments : List Attachment
  username : Option String
  channel : Option String
  icon_url : Option String
  deriving DecidableEq

/-- Outcome of `notify`: the early `return` (no HTTP request), or the POST of
the payload to the (space-stripped) webhook URL. -/
inductive NotifyResult where
  | skipped
  | delivered (url : String) (payload : Payload)
  deriving DecidableEq

/-- Lines 139-146: the conditional "Culprit" field. -/
def culpritFields (title culprit : String) : List Field :=
  if title != culprit then
    [{ title := "Culprit", value := culprit, short := false }]
  else
    []

/-- Lines 148-152: the unconditional "Project" field. -/
def projectField (project_name : String) : Field :=
  { title := "Project", value := project_name, short := true }

/-- Formats one rule as a token, for a pair of link and label. -/
def ruleToken (r : String × String) : String :=
  "<" ++ r.1 ++ " | " ++ r.2 ++ ">"

/-- Lines 154-167: the conditional "Triggered By" field.  Here `ruleLink`
models the host URL builder for the rule-edit route, applied to the
organization slug, the project slug and the rule id. -/
def ruleFields (include_rules : Bool) (org_slug proj_slug : String)
    (rules : List Rule) (ruleLink : String → String → Nat → String) : List Field :=
  if include_rules then
    let rs := rules.map fun rule => (ruleLink org_slug proj_slug rule.id, rule.label)
    if !rs.isEmpty then
      [{ title := "Triggered By",
         value := String.intercalate ", " (rs.map ruleToken),
         short := false }]
    else
      []
  else
    []

/-- Lines 169-175: the conditional per-tag fields. -/
def tagFields (include_tags : Bool) (event : Event) (keyLabel : String → Option String)
    (valueLabel : String → String → Option String) : List Field :=
  if include_tags then
    (get_tags event keyLabel valueLabel).map fun kv =>
      { title := kv.1, value := kv.2, short := true }
  else
    []

/-- Lines 137-175: the `fields` list, in append order. -/
def buildFields (cfg : Config) (n : Notification) (keyLabel : String → Option String)
    (valueLabel : String → String → Option String)
    (ruleLink : String → String → Nat → String) : List Field :=
  let group := n.event.group
  culpritFields group.message_short group.culprit
    ++ [projectField (get_project_full_name group.project)]
    ++ ruleFields cfg.include_rules group.organization_slug group.project.slug n.rules ruleLink
    ++ tagFields cfg.include_tags n.event keyLabel valueLabel

/-- Lines 129, 131 and 177-195: the payload dictionary, given the stored
`username` and `channel` strings (stripped here, as on lines 129 and 131). -/
def buildPayload (cfg : Config) (n : Notification) (keyLabel : String → Option String)
    (valueLabel : String → String → Option String)
    (ruleLink : String → String → Nat → String)
    (username channel : String) : Payload :=
  let group := n.event.group
  let title := group.message_short
  let project_name := get_project_full_name group.project
  { parse := "none",
    attachments := [{
      fallback := "[" ++ project_name ++ "] " ++ title,
      title := title,
      title_link := group.absolute_url,
      color := color_for_group group,
      fields := buildFields cfg n keyLabel valueLabel ruleLink }],
    username := if (pyStrip username).isEmpty then none else some (pyStrip username),
    channel := if (pyStrip channel).isEmpty then none else some (pyStrip channel),
    icon_url := if optTruthy cfg.icon_url then cfg.icon_url else none }

/-- Model of `SlackPlugin.notify`.  Returns `Except.error` when the Python code would
raise `AttributeError` by calling `.strip()` on an absent (`None`) option. -/
def notify (cfg : Config) (n : Notification) (keyLabel : String → Option String)
    (valueLabel : String → String → Option String)
    (ruleLink : String → String → Nat → String) : Except String NotifyResult :=
  if !(is_configured cfg) then
    Except.ok NotifyResult.skipped
  else
    match cfg.webhook with
    | none => Except.error "AttributeError: NoneType object has no attribute strip"
    | some webhook =>
      match cfg.username with
      | none => Except.error "AttributeError: NoneType object has no attribute strip"
      | some username =>
        match cfg.channel with
        | none => Except.error "AttributeError: NoneType object has no attribute strip"
        | some channel =>
          Except.ok (NotifyResult.delivered (pyStripSpace webhook)
            (buildPayload cfg n keyLabel valueLabel ruleLink username channel))

/-! ### JSON documents

`json.dumps(payload)` (line 197) serialises the payload; a JSON document is
modelled as a tree whose objects keep their entries in written order and whose
arrays keep their elements in order. -/

/-- A JSON value, as produced by serialising the payload. -/
inductive JVal where
  | jstr (s : String)
  | jbool (b : Bool)
  | jarr (elems : List JVal)
  | jobj (entries : List (String × JVal))

/-- Serialise one attachment field. -/
def encodeField (f : Field) : JVal :=
  JVal.jobj [("title", JVal.jstr f.title), ("value", JVal.jstr f.value),
    ("short", JVal.jbool f.short)]

/-- Deserialise one attachment field. -/
def decodeField : JVal → Option Field
  | JVal.jobj [("title", JVal.jstr t), ("value", JVal.jstr v), ("short", JVal.jbool s)] =>
    some { title := t, value := v, short := s }
  | _ => none

/-- Deserialise a list of attachment fields, preserving order. -/
def decodeFieldList : List JVal → Option (List Field)
  | [] => some []
  | j :: js =>
    match decodeField j, decodeFieldList js with
    | some f, some fs => some (f :: fs)
    | _, _ => none

/-- Serialise the attachment. -/
def encodeAttachment (a : Attachment) : JVal :=
  JVal.jobj [("fallback", JVal.jstr a.fallback), ("title", JVal.jstr a.title),
    ("title_link", JVal.jstr a.title_link), ("color", JVal.jstr a.color),
    ("fields", JVal.jarr (a.fields.map encodeField))]

/-- Deserialise the attachment. -/
def decodeAttachment : JVal → Option Attachment
  | JVal.jobj [("fallback", JVal.jstr fb), ("title", JVal.jstr t),
      ("title_link", JVal.jstr tl), ("color", JVal.jstr c),
      ("fields", JVal.jarr js)] =>
    match decodeFieldList js with
    | some fs => some { fallback := fb, title := t, title_link := tl, color := c, fields := fs }
    | none => none
  | _ => none

/-- Deserialise a list of attachments, preserving order. -/
def decodeAttachmentList : List JVal → Option (List Attachment)
  | [] => some []
  | j :: js =>
    match decodeAttachment j, decodeAttachmentList js with
    | some a, some as' => some (a :: as')
    | _, _ => none

/-- The object entry for one optional payload key: present iff the value is. -/
def optEntry (key : String) : Option String → List (String × JVal)
  | some v => [(key, JVal.jstr v)]
  | none => []

/-- Serialise the whole payload; the optional `username`, `channel` and
`icon_url` entries appear exactly when present. -/
def encodePayload (p : Payload) : JVal :=
  JVal.jobj ([("parse", JVal.jstr p.parse),
    ("attachments", JVal.jarr (p.attachments.map encodeAttachment))]
    ++ optEntry "username" p.username
    ++ optEntry "channel" p.channel
    ++ optEntry "icon_url" p.icon_url)

/-- Deserialise the optional trailing entries of the payload object. -/
def decodeOptEntries : List (String × JVal) → Option (Option String × Option String × Option String)
  | [] => some (none, none, none)
  | [("username", JVal.jstr u)] => some (some u, none, none)
  | [("channel", JVal.jstr c)] => some (none, some c, none)
  | [("icon_url", JVal.jstr i)] => some (none, none, some i)
  | [("username", JVal.jstr u), ("channel", JVal.jstr c)] => some (some u, some c, none)
  | [("username", JVal.jstr u), ("icon_url", JVal.jstr i)] => some (some u, none, some i)
  | [("channel", JVal.jstr c), ("icon_url", JVal.jstr i)] => some (none, some c, some i)
  | [("username", JVal.jstr u), ("channel", JVal.jstr c), ("icon_url", JVal.jstr i)] =>
    some (some u, some c, some i)
  | _ => none

/-- Deserialise the whole payload. -/
def decodePayload : JVal → Option Payload
  | JVal.jobj (("parse", JVal.jstr ps) :: ("attachments", JVal.jarr js) :: rest) =>
    match decodeAttachmentList js, decodeOptEntries rest with
    | some atts, some (u, c, i) =>
      some { parse := ps, attachments := atts, username := u, channel := c, icon_url := i }
    | _, _ => none
  | _ => none

/-! ### Concrete fixtures used by witnesses and counterexamples -/

/-- A team named `T`. -/
def teamT : Team := { name := "T" }

/-- A project named `P` (so the full name is `T P`). -/
def projectP : Project := { name := "P", slug := "p", team := teamT }

/-- A group over `projectP` with the given message, culprit and level. -/
def mkGroup (msg culp lvl : String) : Group :=
  { message_short := msg, culprit := culp, level_display := lvl,
    absolute_url := "https://sentry.example/issues/1",
    organization_slug := "org", project := projectP }

/-- Empty key-label lookup (no `TagKey` rows match). -/
def noKeyLabel : String → Option String := fun _ => none

/-- Empty value-label lookup (no `TagValue` rows match). -/
def noValueLabel : String → String → Option String := fun _ _ => none

/-- A host URL builder for rule-edit links. -/
def ruleLink0 : String → String → Nat → String :=
  fun org proj i => "/rules/" ++ org ++ "/" ++ proj ++ "/" ++ toString i

/-- A configuration with webhook set and everything else plain. -/
def cfgPlain : Config :=
  { webhook := some "https://hooks.example/w", username := some "Sentry",
    icon_url := none, channel := some "", include_rules := false, include_tags := false }

/-- The configuration `cfgPlain` with tag inclusion switched on. -/
def cfgTags : Config := { cfgPlain with include_tags := true }

/-- The configuration `cfgPlain` with rule inclusion switched on. -/
def cfgRules : Config := { cfgPlain with include_rules := true }

/-- A configuration whose webhook option was never stored. -/
def cfgNoHook : Config := { cfgPlain with webhook := none }

/-- A configuration whose webhook option holds the empty string. -/
def cfgEmptyHook : Config := { cfgPlain with webhook := some "" }

/-- A configured webhook but an absent (never stored) username option. -/
def cfgNoUser : Config := { cfgPlain with username := none, channel := some "#c" }

/-- A configuration exercising all three optional payload keys. -/
def cfgFull : Config :=
  { webhook := some "https://hooks.example/w", username := some "  Bob  ",
    icon_url := some "https://icon.example/i.png", channel := some " #general ",
    include_rules := false, include_tags := false }

/-- An everyday notification: distinct culprit and title, no tags, no rules. -/
def nPlain : Notification :=
  { event := { group := mkGroup "Boom" "app.views" "error", tags := [] }, rules := [] }

/-- Culprit equal to the title, and a tag whose raw key is literally `Culprit`. -/
def nCulpritTag : Notification :=
  { event := { group := mkGroup "Boom" "Boom" "error", tags := [("Culprit", "x")] },
    rules := [] }

/-- A tag whose raw key is literally `Triggered By`, plus one supplied rule. -/
def nTrigTag : Notification :=
  { event := { group := mkGroup "Boom" "app.views" "error", tags := [("Triggered By", "x")] },
    rules := [{ id := 1, label := "r1" }] }

/-- Two supplied rules, no tags. -/
def nRules : Notification :=
  { event := { group := mkGroup "Boom" "app.views" "error", tags := [] },
    rules := [{ id := 1, label := "r1" }, { id := 2, label := "r2" }] }

/-- A single `env=prod` tag. -/
def nEnv : Notification :=
  { event := { group := mkGroup "Boom" "app.views" "error", tags := [("env", "prod")] },
    rules := [] }

/-- An event whose group has an empty culprit but a non-empty title. -/
def nEmptyCulprit : Notification :=
  { event := { group := mkGroup "Boom" "" "info", tags := [] }, rules := [] }

/-- The attachment `notify` builds for `cfgPlain` (or `cfgFull`) and `nPlain`. -/
def attPlain : Attachment :=
  { fallback := "[T P] Boom", title := "Boom",
    title_link := "https://sentry.example/issues/1", color := "#f43f20",
    fields := [{ title := "Culprit", value := "app.views", short := false },
               { title := "Project", value := "T P", short := true }] }

/-- The payload `notify` builds for `cfgPlain` and `nPlain`. -/
def payloadPlain : Payload :=
  { parse := "none", attachments := [attPlain], username := some "Sentry",
    channel := none, icon_url := none }

/-- The attachment `notify` builds for `cfgTags` and `nCulpritTag`: the tag
keyed `Culprit` becomes a single-line field titled `Culprit`. -/
def attCulpritTag : Attachment :=
  { fallback := "[T P] Boom", title := "Boom",
    title_link := "https://sentry.example/issues/1", color := "#f43f20",
    fields := [{ title := "Project", value := "T P", short := true },
               { title := "Culprit", value := "x", short := true }] }

/-- The payload `notify` builds for `cfgTags` and `nCulpritTag`. -/
def payloadCulpritTag : Payload :=
  { parse := "none", attachments := [attCulpritTag], username := some "Sentry",
    channel := none, icon_url := none }

/-- The attachment `notify` builds for `cfgTags` and `nTrigTag`: the tag keyed
`Triggered By` becomes a single-line field of that title although
`include_rules` is false. -/
def attTrigTag : Attachment :=
  { fallback := "[T P] Boom", title := "Boom",
    title_link := "https://sentry.example/issues/1", color := "#f43f20",
    fields := [{ title := "Culprit", value := "app.views", short := false },
               { title := "Project", value := "T P", short := true },
               { title := "Triggered By", value := "x", short := true }] }

/-- The payload `notify` builds for `cfgTags` and `nTrigTag`. -/
def payloadTrigTag : Payload :=
  { parse := "none", attachments := [attTrigTag], username := some "Sentry",
    channel := none, icon_url := none }

/-- The attachment `notify` builds for `cfgRules` and `nRules`. -/
def attRules : Attachment :=
  { fallback := "[T P] Boom", title := "Boom",
    title_link := "https://sentry.example/issues/1", color := "#f43f20",
    fields := [{ title := "Culprit", value := "app.views", short := false },
               { title := "Project", value := "T P", short := true },
               { title := "Triggered By",
                 value := "</rules/org/p/1 | r1>, </rules/org/p/2 | r2>",
                 short := false }] }

/-- The payload `notify` builds for `cfgRules` and `nRules`. -/
def payloadRules : Payload :=
  { parse := "none", attachments := [attRules], username := some "Sentry",
    channel := none, icon_url := none }

/-- The attachment `notify` builds for `cfgTags` and `nEnv`. -/
def attEnv : Attachment :=
  { fallback := "[T P] Boom", title := "Boom",
    title_link := "https://sentry.example/issues/1", color := "#f43f20",
    fields := [{ title := "Culprit", value := "app.views", short := false },
               { title := "Project", value := "T P", short := true },
               { title := "env", value := "prod", short := true }] }

/-- The payload `notify` builds for `cfgTags` and `nEnv`. -/
def payloadEnv : Payload :=
  { parse := "none", attachments := [attEnv], username := some "Sentry",
    channel := none, icon_url := none }

/-- The attachment `notify` builds for `cfgPlain` and `nEmptyCulprit`: an
empty-valued `Culprit` field is present because the empty culprit still
differs from the title. -/
def attEmptyCulprit : Attachment :=
  { fallback := "[T P] Boom", title := "Boom",
    title_link := "https://sentry.example/issues/1", color := "#2788ce",
    fields := [{ title := "Culprit", value := "", short := false },
               { title := "Project", value := "T P", short := true }] }

/-- The payload `notify` builds for `cfgPlain` and `nEmptyCulprit`. -/
def payloadEmptyCulprit : Payload :=
  { parse := "none", attachments := [attEmptyCulprit], username := some "Sentry",
    channel := none, icon_url := none }

/-- The payload `notify` builds for `cfgFull` and `nPlain`: all three optional
keys present, username and channel stripped. -/
def payloadFull : Payload :=
  { parse := "none", attachments := [attPlain], username := some "Bob",
    channel := some "#general", icon_url := some "https://icon.example/i.png" }

/-- A configuration with both `include_rules` and `include_tags` on. -/
def cfgAll : Config := { cfgPlain with include_rules := true, include_tags := true }

/-- One `env=prod` tag and one supplied rule. -/
def nFull : Notification :=
  { event := { group := mkGroup "Boom" "app.views" "error", tags := [("env", "prod")] },
    rules := [{ id := 1, label := "r1" }] }

/-- The attachment `notify` builds for `cfgAll` and `nFull`: all four field
segments populated, in append order. -/
def attFull : Attachment :=
  { fallback := "[T P] Boom", title := "Boom",
    title_link := "https://sentry.example/issues/1", color := "#f43f20",
    fields := [{ title := "Culprit", value := "app.views", short := false },
               { title := "Project", value := "T P", short := true },
               { title := "Triggered By", value := "</rules/org/p/1 | r1>", short := false },
               { title := "env", value := "prod", short := true }] }

/-- The payload `notify` builds for `cfgAll` and `nFull`. -/
def payloadAll : Payload :=
  { parse := "none", attachments := [attFull], username := some "Sentry",
    channel := none, icon_url := none }

/-! ### Round-trip lemmas for the JSON encoding -/

theorem decodeField_encodeField (f : Field) : decodeField (encodeField f) = some f := rfl

theorem decodeFieldList_encode (fs : List Field) :
    decodeFieldList (fs.map encodeField) = some fs := by
  induction fs with
  | nil => rfl
  | cons f fs ih =>
    simp only [List.map_cons, decodeFieldList, decodeField_encodeField, ih]

theorem decodeAttachment_encode (a : Attachment) :
    decodeAttachment (encodeAttachment a) = some a := by
  obtain ⟨fb, t, tl, c, fs⟩ := a
  simp only [encodeAttachment, decodeAttachment, decodeFieldList_encode]

theorem decodeAttachmentList_encode (atts : List Attachment) :
    decodeAttachmentList (atts.map encodeAttachment) = some atts := by
  induction atts with
  | nil => rfl
  | cons a atts ih =>
    simp only [List.map_cons, decodeAttachmentList, decodeAttachment_encode, ih]

theorem decodeOptEntries_optEntry (u c i : Option String) :
    decodeOptEntries
      (optEntry "username" u ++ optEntry "channel" c ++ optEntry "icon_url" i) =
      some (u, c, i) := by
  cases u <;> cases c <;> cases i <;> rfl

theorem decodePayload_encodePayload (p : Payload) :
    decodePayload (encodePayload p) = some p := by
  obtain ⟨ps, atts, u, c, i⟩ := p
  simp only [encodePayload, List.cons_append, List.nil_append, decodePayload,
    decodeAttachmentList_encode, decodeOptEntries_optEntry]

/-! ### Inversion of `notify` -/

theorem notify_delivered_inv {cfg : Config} {n : Notification}
    {kl : String → Option String} {vl : String → String → Option String}
    {rl : String → String → Nat → String} {url : String} {p : Payload}
    (h : notify cfg n kl vl rl = Except.ok (NotifyResult.delivered url p)) :
    ∃ w u c, cfg.webhook = some w ∧ cfg.username = some u ∧ cfg.channel = some c ∧
      url = pyStripSpace w ∧ p = buildPayload cfg n kl vl rl u c := by
  unfold notify at h
  split at h
  · simp at h
  · cases hw : cfg.webhook with
    | none => rw [hw] at h; simp at h
    | some w =>
      rw [hw] at h
      cases hu : cfg.username with
      | none => rw [hu] at h; simp at h
      | some u =>
        rw [hu] at h
        cases hc : cfg.channel with
        | none => rw [hc] at h; simp at h
        | some c =>
          rw [hc] at h
          simp only [Except.ok.injEq, NotifyResult.delivered.injEq] at h
          exact ⟨w, u, c, rfl, rfl, rfl, h.1.symm, h.2.symm⟩

/-! ### Membership facts about the four field segments -/

theorem culpritFields_cases {t c : String} {f : Field} (hf : f ∈ culpritFields t c) :
    f = { title := "Culprit", value := c, short := false } ∧ t ≠ c := by
  unfold culpritFields at hf
  split at hf
  · next hne => exact ⟨by simpa using hf, by simpa using hne⟩
  · simp at hf

theorem mem_culpritFields {t c : String} (hne : t ≠ c) :
    ({ title := "Culprit", value := c, short := false } : Field) ∈ culpritFields t c := by
  unfold culpritFields
  simp [hne]

theorem ruleFields_cases {ir : Bool} {os ps : String} {rules : List Rule}
    {rl : String → String → Nat → String} {f : Field}
    (hf : f ∈ ruleFields ir os ps rules rl) :
    f = { title := "Triggered By",
          value := String.intercalate ", "
            ((rules.map fun rule => (rl os ps rule.id, rule.label)).map ruleToken),
          short := false } ∧ ir = true ∧ rules ≠ [] := by
  unfold ruleFields at hf
  split at hf
  · next hir =>
    dsimp only at hf
    split at hf
    · next hne =>
      refine ⟨by simpa using hf, hir, ?_⟩
      intro hnil
      rw [hnil] at hne
      simp at hne
    · simp at hf
  · simp at hf

theorem mem_ruleFields {os ps : String} {rules : List Rule}
    {rl : String → String → Nat → String} (hr : rules ≠ []) :
    ({ title := "Triggered By",
       value := String.intercalate ", "
         ((rules.map fun rule => (rl os ps rule.id, rule.label)).map ruleToken),
       short := false } : Field) ∈ ruleFields true os ps rules rl := by
  unfold ruleFields
  simp [hr]

theorem tagFields_cases {it : Bool} {ev : Event} {kl : String → Option String}
    {vl : String → String → Option String} {f : Field}
    (hf : f ∈ tagFields it ev kl vl) : f.short = true := by
  unfold tagFields at hf
  split at hf
  · rcases List.mem_map.1 hf with ⟨kv, _, rfl⟩
    rfl
  · simp at hf

/-! ### Characterisation of the built field list -/

theorem buildFields_culprit_iff (cfg : Config) (n : Notification)
    (kl : String → Option String) (vl : String → String → Option String)
    (rl : String → String → Nat → String) :
    (∃ f ∈ buildFields cfg n kl vl rl, f.title = "Culprit" ∧ f.short = false) ↔
      n.event.group.message_short ≠ n.event.group.culprit := by
  unfold buildFields
  dsimp only
  constructor
  · rintro ⟨f, hf, ht, hs⟩
    simp only [List.mem_append, List.mem_singleton] at hf
    rcases hf with ((hf | hf) | hf) | hf
    · exact (culpritFields_cases hf).2
    · rw [hf] at ht
      exact absurd (show ("Project" : String) = "Culprit" from ht) (by decide)
    · rcases ruleFields_cases hf with ⟨rfl, -, -⟩
      exact absurd (show ("Triggered By" : String) = "Culprit" from ht) (by decide)
    · rw [tagFields_cases hf] at hs
      cases hs
  · intro hne
    exact ⟨_, List.mem_append_left _
      (List.mem_append_left _ (List.mem_append_left _ (mem_culpritFields hne))), rfl, rfl⟩

theorem buildFields_culprit_value (cfg : Config) (n : Notification)
    (kl : String → Option String) (vl : String → String → Option String)
    (rl : String → String → Nat → String) {f : Field}
    (hf : f ∈ buildFields cfg n kl vl rl) (ht : f.title = "Culprit")
    (hs : f.short = false) : f.value = n.event.group.culprit := by
  unfold buildFields at hf
  simp only [List.mem_append, List.mem_singleton] at hf
  rcases hf with ((hf | hf) | hf) | hf
  · rw [(culpritFields_cases hf).1]
  · rw [hf] at ht
    exact absurd (show ("Project" : String) = "Culprit" from ht) (by decide)
  · rcases ruleFields_cases hf with ⟨rfl, -, -⟩
    exact absurd (show ("Triggered By" : String) = "Culprit" from ht) (by decide)
  · rw [tagFields_cases hf] at hs
    cases hs

theorem buildFields_triggered_iff (cfg : Config) (n : Notification)
    (kl : String → Option String) (vl : String → String → Option String)
    (rl : String → String → Nat → String) :
    (∃ f ∈ buildFields cfg n kl vl rl, f.title = "Triggered By" ∧ f.short = false) ↔
      cfg.include_rules = true ∧ n.rules ≠ [] := by
  unfold buildFields
  dsimp only
  constructor
  · rintro ⟨f, hf, ht, hs⟩
    simp only [List.mem_append, List.mem_singleton] at hf
    rcases hf with ((hf | hf) | hf) | hf
    · rcases culpritFields_cases hf with ⟨rfl, -⟩
      exact absurd (show ("Culprit" : String) = "Triggered By" from ht) (by decide)
    · rw [hf] at ht
      exact absurd (show ("Project" : String) = "Triggered By" from ht) (by decide)
    · exact (ruleFields_cases hf).2
    · rw [tagFields_cases hf] at hs
      cases hs
  · rintro ⟨hir, hr⟩
    rw [hir]
    exact ⟨_, List.mem_append_left _ (List.mem_append_right _ (mem_ruleFields hr)), rfl, rfl⟩

theorem buildFields_triggered_value (cfg : Config) (n : Notification)
    (kl : String → Option String) (vl : String → String → Option String)
    (rl : String → String → Nat → String) {f : Field}
    (hf : f ∈ buildFields cfg n kl vl rl) (ht : f.title = "Triggered By")
    (hs : f.short = false) :
    f.value = String.intercalate ", " (n.rules.map fun r =>
      "<" ++ rl n.event.group.organization_slug n.event.group.project.slug r.id
        ++ " | " ++ r.label ++ ">") := by
  unfold buildFields at hf
  simp only [List.mem_append, List.mem_singleton] at hf
  rcases hf with ((hf | hf) | hf) | hf
  · rcases culpritFields_cases hf with ⟨rfl, -⟩
    exact absurd (show ("Culprit" : String) = "Triggered By" from ht) (by decide)
  · rw [hf] at ht
    exact absurd (show ("Project" : String) = "Triggered By" from ht) (by decide)
  · rw [(ruleFields_cases hf).1]
    simp only [List.map_map]
    rfl
  · rw [tagFields_cases hf] at hs
    cases hs

/-- The function `get_tags` is the label-resolving map over the event's tags (the empty-tag
early return coincides with mapping the empty list). -/
theorem get_tags_eq (ev : Event) (kl : String → Option String)
    (vl : String → String → Option String) :
    get_tags ev kl vl =
      ev.tags.map fun kv => ((kl kv.1).getD kv.1, (vl kv.1 kv.2).getD kv.2) := by
  unfold get_tags
  dsimp only
  split
  · next h => rw [List.isEmpty_iff.mp h]; rfl
  · rfl

/-- With `include_tags` on, the tag segment is one short field per tag, in order. -/
theorem tagFields_true_eq (ev : Event) (kl : String → Option String)
    (vl : String → String → Option String) :
    tagFields true ev kl vl = ev.tags.map fun kv =>
      { title := (kl kv.1).getD kv.1, value := (vl kv.1 kv.2).getD kv.2, short := true } := by
  unfold tagFields
  rw [if_pos rfl, get_tags_eq, List.map_map]
  rfl

/-! ### The claims -/

/-- C1: for every project whose `webhook` setting is absent or empty, `notify`
returns the skipped result and performs no HTTP request (the result is the
early return, never a delivery). -/
theorem notify_skips_without_webhook (cfg : Config) (n : Notification)
    (kl : String → Option String) (vl : String → String → Option String)
    (rl : String → String → Nat → String)
    (h : cfg.webhook = none ∨ cfg.webhook = some "") :
    notify cfg n kl vl rl = Except.ok NotifyResult.skipped := by
  have hc : is_configured cfg = false := by
    rcases h with h | h <;> (unfold is_configured; rw [h]; decide)
  unfold notify
  rw [hc]
  rfl

/-- Witness for C1: a concrete project with no stored webhook is skipped. -/
theorem notify_skips_without_webhook_witness :
    (cfgNoHook.webhook = none ∨ cfgNoHook.webhook = some "") ∧
      notify cfgNoHook nPlain noKeyLabel noValueLabel ruleLink0 =
        Except.ok NotifyResult.skipped :=
  ⟨Or.inl rfl,
    notify_skips_without_webhook cfgNoHook nPlain noKeyLabel noValueLabel ruleLink0 (Or.inl rfl)⟩

/-- C2 (code bug): the dictionary lookup in `color_for_group` defaults to the
literal string error rather than to the error color, so an unrecognized level
yields "#error", not the error color "#f43f20" that the table intends;
recognized levels do map to their table entries. -/
theorem color_for_group_unrecognized_level :
    color_for_group (mkGroup "m" "c" "bogus") = "#error" ∧
      color_for_group (mkGroup "m" "c" "fatal") = "#d20f2a" ∧
      "#error" ≠ "#f43f20" :=
  ⟨by decide, by decide, by decide⟩

/-- C3: the computed project full name is the project name P when the team
name T is a substring of P, and otherwise the concatenation "T P". -/
theorem project_full_name_spec (teamName projName slug : String) :
    get_project_full_name { name := projName, slug := slug, team := { name := teamName } } =
      if teamName.data <:+: projName.data then projName
      else teamName ++ " " ++ projName := by
  unfold get_project_full_name pyIn
  by_cases h : teamName.data <:+: projName.data
  · simp [h]
  · simp [h]

/-- C10 (code bug): with the webhook configured but the `username` option
never stored, `notify` raises `AttributeError` from `None.strip()` instead of
completing with the documented "Sentry" default. -/
theorem notify_raises_on_absent_username :
    notify cfgNoUser nPlain noKeyLabel noValueLabel ruleLink0 =
      Except.error "AttributeError: NoneType object has no attribute strip" := rfl

/-- Every attachment of a built payload (there is exactly one) carries the
built field list. -/
theorem buildPayload_attachments (cfg : Config) (n : Notification)
    (kl : String → Option String) (vl : String → String → Option String)
    (rl : String → String → Nat → String) (u c : String) {a : Attachment}
    (ha : a ∈ (buildPayload cfg n kl vl rl u c).attachments) :
    a.fields = buildFields cfg n kl vl rl := by
  unfold buildPayload at ha
  dsimp only at ha
  rw [List.mem_singleton] at ha
  subst ha
  rfl

/-- The `username` entry of a built payload. -/
theorem buildPayload_username (cfg : Config) (n : Notification)
    (kl : String → Option String) (vl : String → String → Option String)
    (rl : String → String → Nat → String) (u c : String) :
    (buildPayload cfg n kl vl rl u c).username =
      if (pyStrip u).isEmpty then none else some (pyStrip u) := rfl

/-- The `channel` entry of a built payload. -/
theorem buildPayload_channel (cfg : Config) (n : Notification)
    (kl : String → Option String) (vl : String → String → Option String)
    (rl : String → String → Nat → String) (u c : String) :
    (buildPayload cfg n kl vl rl u c).channel =
      if (pyStrip c).isEmpty then none else some (pyStrip c) := rfl

/-- The `icon_url` entry of a built payload. -/
theorem buildPayload_icon_url (cfg : Config) (n : Notification)
    (kl : String → Option String) (vl : String → String → Option String)
    (rl : String → String → Nat → String) (u c : String) :
    (buildPayload cfg n kl vl rl u c).icon_url =
      if optTruthy cfg.icon_url then cfg.icon_url else none := rfl

/-- C4 counterexample: with the culprit equal to the title but `include_tags`
on and a tag whose raw key is literally `Culprit`, the delivered field list
does contain a field titled `Culprit`, so the claimed equivalence is false as
stated. -/
theorem culprit_field_literal_cex :
    ¬ ∀ (cfg : Config) (n : Notification) (kl : String → Option String)
        (vl : String → String → Option String) (rl : String → String → Nat → String)
        (url : String) (p : Payload),
        notify cfg n kl vl rl = Except.ok (NotifyResult.delivered url p) →
        ∀ a ∈ p.attachments,
          ((∃ f ∈ a.fields, f.title = "Culprit") ↔
              n.event.group.culprit ≠ n.event.group.message_short) ∧
            ∀ f ∈ a.fields, f.title = "Culprit" →
              f.value = n.event.group.culprit ∧ f.short = false := by
  intro hclaim
  have h := hclaim cfgTags nCulpritTag noKeyLabel noValueLabel ruleLink0
    "https://hooks.example/w" payloadCulpritTag rfl attCulpritTag (by decide)
  have h2 := h.1.mp ⟨{ title := "Culprit", value := "x", short := true }, by decide, rfl⟩
  exact h2 rfl

/-- C4 (amended): the field list contains a multi-line (short = false) field
titled `Culprit` iff the group's culprit differs from the title, and any such
field carries the culprit text; the literal claim fails only for single-line
tag fields whose raw key is `Culprit`. -/
theorem culprit_field_iff_distinct (cfg : Config) (n : Notification)
    (kl : String → Option String) (vl : String → String → Option String)
    (rl : String → String → Nat → String) (url : String) (p : Payload)
    (h : notify cfg n kl vl rl = Except.ok (NotifyResult.delivered url p))
    (a : Attachment) (ha : a ∈ p.attachments) :
    ((∃ f ∈ a.fields, f.title = "Culprit" ∧ f.short = false) ↔
        n.event.group.culprit ≠ n.event.group.message_short) ∧
      ∀ f ∈ a.fields, f.title = "Culprit" → f.short = false →
        f.value = n.event.group.culprit := by
  rcases notify_delivered_inv h with ⟨w, u, c, -, -, -, -, rfl⟩
  rw [buildPayload_attachments cfg n kl vl rl u c ha]
  exact ⟨(buildFields_culprit_iff cfg n kl vl rl).trans ne_comm,
    fun f hf ht hs => buildFields_culprit_value cfg n kl vl rl hf ht hs⟩

/-- Witness for C4 (amended) at a concrete delivery with distinct culprit. -/
theorem culprit_field_iff_distinct_witness :
    notify cfgPlain nPlain noKeyLabel noValueLabel ruleLink0 =
        Except.ok (NotifyResult.delivered "https://hooks.example/w" payloadPlain) ∧
      attPlain ∈ payloadPlain.attachments ∧
      (((∃ f ∈ attPlain.fields, f.title = "Culprit" ∧ f.short = false) ↔
          nPlain.event.group.culprit ≠ nPlain.event.group.message_short) ∧
        ∀ f ∈ attPlain.fields, f.title = "Culprit" → f.short = false →
          f.value = nPlain.event.group.culprit) :=
  ⟨rfl, by decide,
    culprit_field_iff_distinct cfgPlain nPlain noKeyLabel noValueLabel ruleLink0
      "https://hooks.example/w" payloadPlain rfl attPlain (by decide)⟩

/-- C5 counterexample: with `include_rules` false but `include_tags` on and a
tag whose raw key is literally `Triggered By`, a field of that title appears,
so the claimed absence is false as stated. -/
theorem triggered_by_literal_cex :
    ¬ ∀ (cfg : Config) (n : Notification) (kl : String → Option String)
        (vl : String → String → Option String) (rl : String → String → Nat → String)
        (url : String) (p : Payload),
        notify cfg n kl vl rl = Except.ok (NotifyResult.delivered url p) →
        cfg.include_rules = false →
        ∀ a ∈ p.attachments, ¬ ∃ f ∈ a.fields, f.title = "Triggered By" := by
  intro hclaim
  exact hclaim cfgTags nTrigTag noKeyLabel noValueLabel ruleLink0
    "https://hooks.example/w" payloadTrigTag rfl rfl attTrigTag (by decide)
    ⟨{ title := "Triggered By", value := "x", short := true }, by decide, rfl⟩

/-- C5 (amended): a multi-line (short = false) field titled `Triggered By` is
present iff `include_rules` is true and at least one rule is supplied, and any
such field carries the comma-joined `<link | label>` tokens in rule order; the
literal claim fails only for single-line tag fields whose raw key is
`Triggered By`. -/
theorem triggered_by_field_iff (cfg : Config) (n : Notification)
    (kl : String → Option String) (vl : String → String → Option String)
    (rl : String → String → Nat → String) (url : String) (p : Payload)
    (h : notify cfg n kl vl rl = Except.ok (NotifyResult.delivered url p))
    (a : Attachment) (ha : a ∈ p.attachments) :
    ((∃ f ∈ a.fields, f.title = "Triggered By" ∧ f.short = false) ↔
        cfg.include_rules = true ∧ n.rules ≠ []) ∧
      ∀ f ∈ a.fields, f.title = "Triggered By" → f.short = false →
        f.value = String.intercalate ", " (n.rules.map fun r =>
          "<" ++ rl n.event.group.organization_slug n.event.group.project.slug r.id
            ++ " | " ++ r.label ++ ">") := by
  rcases notify_delivered_inv h with ⟨w, u, c, -, -, -, -, rfl⟩
  rw [buildPayload_attachments cfg n kl vl rl u c ha]
  exact ⟨buildFields_triggered_iff cfg n kl vl rl,
    fun f hf ht hs => buildFields_triggered_value cfg n kl vl rl hf ht hs⟩

/-- Witness for C5 (amended) at a delivery with two rules included. -/
theorem triggered_by_field_iff_witness :
    notify cfgRules nRules noKeyLabel noValueLabel ruleLink0 =
        Except.ok (NotifyResult.delivered "https://hooks.example/w" payloadRules) ∧
      attRules ∈ payloadRules.attachments ∧
      (((∃ f ∈ attRules.fields, f.title = "Triggered By" ∧ f.short = false) ↔
          cfgRules.include_rules = true ∧ nRules.rules ≠ []) ∧
        ∀ f ∈ attRules.fields, f.title = "Triggered By" → f.short = false →
          f.value = String.intercalate ", " (nRules.rules.map fun r =>
            "<" ++ ruleLink0 nRules.event.group.organization_slug
                nRules.event.group.project.slug r.id
              ++ " | " ++ r.label ++ ">")) :=
  ⟨rfl, by decide,
    triggered_by_field_iff cfgRules nRules noKeyLabel noValueLabel ruleLink0
      "https://hooks.example/w" payloadRules rfl attRules (by decide)⟩

/-- C6: when `include_tags` is true the delivered field list ends with exactly
one single-line field per event tag, in the event's tag order, titled with the
resolved key label (falling back to the raw key) and valued with the resolved
value label (falling back to the raw value). -/
theorem tag_fields_appended (cfg : Config) (n : Notification)
    (kl : String → Option String) (vl : String → String → Option String)
    (rl : String → String → Nat → String) (url : String) (p : Payload)
    (h : notify cfg n kl vl rl = Except.ok (NotifyResult.delivered url p))
    (hit : cfg.include_tags = true)
    (a : Attachment) (ha : a ∈ p.attachments) :
    ∃ pre, a.fields = pre ++ n.event.tags.map fun kv =>
      { title := (kl kv.1).getD kv.1, value := (vl kv.1 kv.2).getD kv.2,
        short := true } := by
  rcases notify_delivered_inv h with ⟨w, u, c, -, -, -, -, rfl⟩
  rw [buildPayload_attachments cfg n kl vl rl u c ha]
  unfold buildFields
  dsimp only
  rw [hit, tagFields_true_eq]
  exact ⟨_, rfl⟩

/-- Witness for C6 at a delivery with the single tag `env=prod` and no
matching labels: the appended tag segment is `[{env, prod, short}]`. -/
theorem tag_fields_appended_witness :
    notify cfgTags nEnv noKeyLabel noValueLabel ruleLink0 =
        Except.ok (NotifyResult.delivered "https://hooks.example/w" payloadEnv) ∧
      cfgTags.include_tags = true ∧
      attEnv ∈ payloadEnv.attachments ∧
      (∃ pre, attEnv.fields = pre ++ nEnv.event.tags.map fun kv =>
        { title := (noKeyLabel kv.1).getD kv.1,
          value := (noValueLabel kv.1 kv.2).getD kv.2, short := true }) :=
  ⟨rfl, rfl, by decide,
    tag_fields_appended cfgTags nEnv noKeyLabel noValueLabel ruleLink0
      "https://hooks.example/w" payloadEnv rfl rfl attEnv (by decide)⟩

/-- C7: the delivered payload has a `username` entry iff the stored username
is non-empty after stripping, a `channel` entry iff the stored channel is
non-empty after stripping, and an `icon_url` entry iff the stored icon URL is
present (truthy); when the condition fails the key is absent entirely. -/
theorem optional_keys_present_iff (cfg : Config) (n : Notification)
    (kl : String → Option String) (vl : String → String → Option String)
    (rl : String → String → Nat → String) (url : String) (p : Payload)
    (us ch : String)
    (h : notify cfg n kl vl rl = Except.ok (NotifyResult.delivered url p))
    (hu : cfg.username = some us) (hc : cfg.channel = some ch) :
    (p.username.isSome ↔ pyStrip us ≠ "") ∧
      (p.channel.isSome ↔ pyStrip ch ≠ "") ∧
      (p.icon_url.isSome ↔ optTruthy cfg.icon_url = true) := by
  rcases notify_delivered_inv h with ⟨w, u, c, hw, hu2, hc2, -, rfl⟩
  have huu : us = u := Option.some.inj (hu.symm.trans hu2)
  have hcc : ch = c := Option.some.inj (hc.symm.trans hc2)
  subst huu
  subst hcc
  refine ⟨?_, ?_, ?_⟩
  · rw [buildPayload_username]
    by_cases he : (pyStrip us).isEmpty
    · rw [if_pos he, (String.isEmpty_iff _).mp he]
      simp
    · have hne : pyStrip us ≠ "" := fun heq => he ((String.isEmpty_iff _).mpr heq)
      simp [he, hne]
  · rw [buildPayload_channel]
    by_cases he : (pyStrip ch).isEmpty
    · rw [if_pos he, (String.isEmpty_iff _).mp he]
      simp
    · have hne : pyStrip ch ≠ "" := fun heq => he ((String.isEmpty_iff _).mpr heq)
      simp [he, hne]
  · rw [buildPayload_icon_url]
    by_cases hi : optTruthy cfg.icon_url = true
    · rw [if_pos hi]
      cases hci : cfg.icon_url with
      | none => rw [hci] at hi; exact absurd hi (by decide)
      | some s =>
        rw [hci] at hi
        simp [hci, hi]
    · rw [if_neg hi]
      simp [hi]

/-- Witness for C7 at a delivery with all three optional settings stored. -/
theorem optional_keys_present_iff_witness :
    notify cfgFull nPlain noKeyLabel noValueLabel ruleLink0 =
        Except.ok (NotifyResult.delivered "https://hooks.example/w" payloadFull) ∧
      cfgFull.username = some "  Bob  " ∧ cfgFull.channel = some " #general " ∧
      ((payloadFull.username.isSome ↔ pyStrip "  Bob  " ≠ "") ∧
        (payloadFull.channel.isSome ↔ pyStrip " #general " ≠ "") ∧
        (payloadFull.icon_url.isSome ↔ optTruthy cfgFull.icon_url = true)) :=
  ⟨rfl, rfl, rfl,
    optional_keys_present_iff cfgFull nPlain noKeyLabel noValueLabel ruleLink0
      "https://hooks.example/w" payloadFull "  Bob  " " #general " rfl rfl rfl⟩

/-- C8: every delivered payload has `parse` = "none" and exactly one
attachment with the specified fallback, title, title link and severity color,
whose field list is the append, in order, of the Culprit segment (if
present), the Project field, the Triggered By segment (if present) and the
tag fields; serialising the payload to JSON and deserialising it returns the
payload unchanged, fields in the exact append order. -/
theorem payload_shape_roundtrip (cfg : Config) (n : Notification)
    (kl : String → Option String) (vl : String → String → Option String)
    (rl : String → String → Nat → String) (url : String) (p : Payload)
    (h : notify cfg n kl vl rl = Except.ok (NotifyResult.delivered url p)) :
    p.parse = "none" ∧
      (∃ a, p.attachments = [a] ∧
        a.fallback = "[" ++ get_project_full_name n.event.group.project ++ "] "
          ++ n.event.group.message_short ∧
        a.title = n.event.group.message_short ∧
        a.title_link = n.event.group.absolute_url ∧
        a.color = color_for_group n.event.group ∧
        a.fields = culpritFields n.event.group.message_short n.event.group.culprit
          ++ [projectField (get_project_full_name n.event.group.project)]
          ++ ruleFields cfg.include_rules n.event.group.organization_slug
              n.event.group.project.slug n.rules rl
          ++ tagFields cfg.include_tags n.event kl vl) ∧
      decodePayload (encodePayload p) = some p := by
  rcases notify_delivered_inv h with ⟨w, u, c, -, -, -, -, rfl⟩
  exact ⟨rfl, ⟨_, rfl, rfl, rfl, rfl, rfl, rfl⟩, decodePayload_encodePayload _⟩

/-- Witness for C8 at a concrete delivery with every field segment present. -/
theorem payload_shape_roundtrip_witness :
    notify cfgAll nFull noKeyLabel noValueLabel ruleLink0 =
        Except.ok (NotifyResult.delivered "https://hooks.example/w" payloadAll) ∧
      (payloadAll.parse = "none" ∧
        (∃ a, payloadAll.attachments = [a] ∧
          a.fallback = "[" ++ get_project_full_name nFull.event.group.project ++ "] "
            ++ nFull.event.group.message_short ∧
          a.title = nFull.event.group.message_short ∧
          a.title_link = nFull.event.group.absolute_url ∧
          a.color = color_for_group nFull.event.group ∧
          a.fields = culpritFields nFull.event.group.message_short nFull.event.group.culprit
            ++ [projectField (get_project_full_name nFull.event.group.project)]
            ++ ruleFields cfgAll.include_rules nFull.event.group.organization_slug
                nFull.event.group.project.slug nFull.rules ruleLink0
            ++ tagFields cfgAll.include_tags nFull.event noKeyLabel noValueLabel) ∧
        decodePayload (encodePayload payloadAll) = some payloadAll) :=
  ⟨rfl, payload_shape_roundtrip cfgAll nFull noKeyLabel noValueLabel ruleLink0
    "https://hooks.example/w" payloadAll rfl⟩

/-- C9 counterexample: an event whose group has an empty culprit but a
non-empty title does get a field titled `Culprit` (with empty value),
contradicting the claimed absence. -/
theorem empty_culprit_literal_cex :
    ¬ ∀ (cfg : Config) (n : Notification) (kl : String → Option String)
        (vl : String → String → Option String) (rl : String → String → Nat → String)
        (url : String) (p : Payload),
        notify cfg n kl vl rl = Except.ok (NotifyResult.delivered url p) →
        n.event.group.culprit = "" →
        ∀ a ∈ p.attachments, ¬ ∃ f ∈ a.fields, f.title = "Culprit" := by
  intro hclaim
  exact hclaim cfgPlain nEmptyCulprit noKeyLabel noValueLabel ruleLink0
    "https://hooks.example/w" payloadEmptyCulprit rfl rfl attEmptyCulprit (by decide)
    ⟨{ title := "Culprit", value := "", short := false }, by decide, rfl⟩

/-- C9 (amended): the Culprit field is governed only by inequality with the
title, with no non-emptiness requirement: for an event whose group has an
empty culprit, a multi-line `Culprit` field (whose value is the empty culprit
text) appears iff the title is non-empty. -/
theorem empty_culprit_field_iff (cfg : Config) (n : Notification)
    (kl : String → Option String) (vl : String → String → Option String)
    (rl : String → String → Nat → String) (url : String) (p : Payload)
    (h : notify cfg n kl vl rl = Except.ok (NotifyResult.delivered url p))
    (hcul : n.event.group.culprit = "")
    (a : Attachment) (ha : a ∈ p.attachments) :
    ((∃ f ∈ a.fields, f.title = "Culprit" ∧ f.short = false) ↔
        n.event.group.message_short ≠ "") ∧
      ∀ f ∈ a.fields, f.title = "Culprit" → f.short = false → f.value = "" := by
  rcases notify_delivered_inv h with ⟨w, u, c, -, -, -, -, rfl⟩
  rw [buildPayload_attachments cfg n kl vl rl u c ha]
  constructor
  · rw [buildFields_culprit_iff, hcul]
  · intro f hf ht hs
    rw [← hcul]
    exact buildFields_culprit_value cfg n kl vl rl hf ht hs

/-- Witness for C9 (amended) at the concrete empty-culprit delivery. -/
theorem empty_culprit_field_iff_witness :
    notify cfgPlain nEmptyCulprit noKeyLabel noValueLabel ruleLink0 =
        Except.ok (NotifyResult.delivered "https://hooks.example/w" payloadEmptyCulprit) ∧
      nEmptyCulprit.event.group.culprit = "" ∧
      attEmptyCulprit ∈ payloadEmptyCulprit.attachments ∧
      (((∃ f ∈ attEmptyCulprit.fields, f.title = "Culprit" ∧ f.short = false) ↔
          nEmptyCulprit.event.group.message_short ≠ "") ∧
        ∀ f ∈ attEmptyCulprit.fields, f.title = "Culprit" → f.short = false →
          f.value = "") :=
  ⟨rfl, rfl, by decide,
    empty_culprit_field_iff cfgPlain nEmptyCulprit noKeyLabel noValueLabel ruleLink0
      "https://hooks.example/w" payloadEmptyCulprit rfl rfl attEmptyCulprit (by decide)⟩

end SentrySlack
